import Mathlib

/-!
Verification of the live bus-tracking core of the `bus-tracking` repository.

The development shallowly embeds the relevant parts of the source:
- `app/realtime.py` — `ConnectionManager` (observer registry and broadcast);
- `app/routers/buses.py` — the location-update handler, the active-status and
  nearby queries, and the Haversine `calculate_distance`;
- `app/routers/routes.py` — the placeholder route planner.

Python machine-level aspects are modelled as follows: database tables are
insertion-ordered lists, SQLAlchemy queries are list operations on them,
datetimes are integers, floats are real numbers, and a pydantic attribute
access on a missing field is an explicit `attributeError` outcome.
-/

namespace BusApp

/-- Observer connection handle (a WebSocket object in the source, identity only). -/
abbrev Obs := Nat

/-- Model of `ConnectionManager` (realtime.py line 6): the registry is the
`active_connections` set, modelled as a duplicate-free insertion-ordered list. -/
structure ConnectionManager where
  active_connections : List Obs

/-- Model of `ConnectionManager.disconnect` (realtime.py lines 14-16):
remove the connection from the set if present, otherwise do nothing. -/
def ConnectionManager.disconnect (m : ConnectionManager) (ws : Obs) : ConnectionManager :=
  if ws ∈ m.active_connections then { active_connections := m.active_connections.erase ws }
  else m

/-- Model of the send loop of `ConnectionManager.broadcast` (realtime.py lines
22-27): iterate over a snapshot of the connections, attempting to send `data`
to each; `sendOk c = false` models `connection.send_text` raising, in which case
the connection is appended to `to_remove` instead of receiving a frame.
Returns (delivered frames in iteration order, `to_remove` in iteration order). -/
def sendLoop (sendOk : Obs → Bool) (data : String) :
    List Obs → List (Obs × String) × List Obs
  | [] => ([], [])
  | c :: rest =>
    let r := sendLoop sendOk data rest
    if sendOk c then ((c, data) :: r.1, r.2) else (r.1, c :: r.2)

/-- Model of `ConnectionManager.broadcast` (realtime.py lines 18-29): if the
registry is empty return at once; otherwise serialize the message once
(`json.dumps`, modelled by the abstract `serialize`), attempt a send of the one
serialized frame to every connection in a snapshot, and afterwards disconnect
every connection whose send failed. The function is total: a per-observer send
failure is caught and never escapes to the caller.
Returns (manager after pruning, frames actually delivered). -/
def ConnectionManager.broadcast {Msg : Type} (serialize : Msg → String)
    (sendOk : Obs → Bool) (m : ConnectionManager) (message : Msg) :
    ConnectionManager × List (Obs × String) :=
  if m.active_connections = [] then (m, [])
  else
    let data := serialize message
    let r := sendLoop sendOk data m.active_connections
    (r.2.foldl (fun acc ws => acc.disconnect ws) m, r.1)

/-- The send loop delivers one frame to each connection whose send succeeds and
collects exactly the failing connections, both in iteration order. -/
theorem sendLoop_eq (sendOk : Obs → Bool) (data : String) (l : List Obs) :
    sendLoop sendOk data l =
      ((l.filter sendOk).map (fun c => (c, data)), l.filter (fun c => !sendOk c)) := by
  induction l with
  | nil => rfl
  | cons c rest ih =>
    by_cases h : sendOk c = true
    · simp [sendLoop, ih, List.filter_cons, h]
    · simp only [Bool.not_eq_true] at h
      simp [sendLoop, ih, List.filter_cons, h]

/-- In a duplicate-free list, filtering for equality with a member yields
exactly that one element. -/
theorem filter_beq_of_nodup {l : List Obs} (hnd : l.Nodup) {a : Obs} (ha : a ∈ l) :
    l.filter (fun c => c == a) = [a] := by
  induction l with
  | nil => cases ha
  | cons x rest ih =>
    rcases List.mem_cons.mp ha with h | h
    · subst h
      have hx : a ∉ rest := (List.nodup_cons.mp hnd).1
      have hrest : rest.filter (fun c => c == a) = [] := by
        apply List.filter_eq_nil_iff.mpr
        intro b hb
        simp only [beq_iff_eq]
        intro hba
        exact hx (hba ▸ hb)
      simp [List.filter_cons, hrest]
    · have hnd' : rest.Nodup := (List.nodup_cons.mp hnd).2
      have hxa : x ≠ a := by
        intro hxa
        exact (List.nodup_cons.mp hnd).1 (hxa ▸ h)
      simp [List.filter_cons, hxa, ih hnd' h]

/-- Claim C3: with N registered observers whose sends all succeed, one publish
delivers exactly N frames, one to each observer in registry order, every frame
being the single serialization of the event, and the registry is unchanged. -/
theorem C3_publish_delivers_one_identical_frame_per_observer {Msg : Type}
    (serialize : Msg → String) (sendOk : Obs → Bool) (m : ConnectionManager) (message : Msg)
    (hok : ∀ c ∈ m.active_connections, sendOk c = true) :
    m.broadcast serialize sendOk message =
      (m, m.active_connections.map (fun c => (c, serialize message))) ∧
    (m.broadcast serialize sendOk message).2.length = m.active_connections.length ∧
    ∀ f ∈ (m.broadcast serialize sendOk message).2, f.2 = serialize message := by
  have hb : m.broadcast serialize sendOk message =
      (m, m.active_connections.map (fun c => (c, serialize message))) := by
    by_cases hempty : m.active_connections = []
    · simp [ConnectionManager.broadcast, hempty]
    · have h1 : m.active_connections.filter sendOk = m.active_connections :=
        List.filter_eq_self.mpr hok
      have h2 : m.active_connections.filter (fun c => !sendOk c) = [] :=
        List.filter_eq_nil_iff.mpr (fun c hc => by simp [hok c hc])
      simp [ConnectionManager.broadcast, hempty, sendLoop_eq, h1, h2]
  refine ⟨hb, ?_, ?_⟩
  · rw [hb]
    exact List.length_map _ _
  · rw [hb]
    intro f hf
    rcases List.mem_map.mp hf with ⟨c, _, rfl⟩
    rfl

/-- Witness for C3 at a concrete registry of three observers. -/
theorem C3_witness :
    ConnectionManager.broadcast (fun _ => "frame") (fun _ => true)
        ⟨[1, 2, 3]⟩ (0 : Nat) =
      (⟨[1, 2, 3]⟩, [(1, "frame"), (2, "frame"), (3, "frame")]) :=
  (C3_publish_delivers_one_identical_frame_per_observer (fun _ => "frame")
    (fun _ => true) ⟨[1, 2, 3]⟩ 0 (by simp)).1.trans rfl

/-- Claim C1: if exactly one observer `bad` fails during a broadcast, every
other registered observer still receives the serialized event, the broadcast
returns normally with `bad` pruned from the registry, and `bad` is absent from
the registry afterwards. -/
theorem C1_observer_failure_is_isolated {Msg : Type}
    (serialize : Msg → String) (sendOk : Obs → Bool) (m : ConnectionManager)
    (message : Msg) (bad : Obs)
    (hnd : m.active_connections.Nodup)
    (hmem : bad ∈ m.active_connections)
    (hbad : sendOk bad = false)
    (hok : ∀ c ∈ m.active_connections, c ≠ bad → sendOk c = true) :
    (m.broadcast serialize sendOk message).2 =
      (m.active_connections.filter (fun c => c != bad)).map (fun c => (c, serialize message)) ∧
    (m.broadcast serialize sendOk message).1.active_connections =
      m.active_connections.erase bad ∧
    bad ∉ (m.broadcast serialize sendOk message).1.active_connections ∧
    ∀ c ∈ m.active_connections, c ≠ bad →
      (c, serialize message) ∈ (m.broadcast serialize sendOk message).2 := by
  have hempty : ¬ m.active_connections = [] := by
    intro h
    rw [h] at hmem
    cases hmem
  have hfs : m.active_connections.filter sendOk =
      m.active_connections.filter (fun c => c != bad) := by
    apply List.filter_congr
    intro c hc
    by_cases hcb : c = bad
    · subst hcb
      simp [hbad]
    · simp [hok c hc hcb, hcb]
  have hfr : m.active_connections.filter (fun c => !sendOk c) = [bad] := by
    have : m.active_connections.filter (fun c => !sendOk c) =
        m.active_connections.filter (fun c => c == bad) := by
      apply List.filter_congr
      intro c hc
      by_cases hcb : c = bad
      · subst hcb
        simp [hbad]
      · simp [hok c hc hcb, hcb]
    rw [this]
    exact filter_beq_of_nodup hnd hmem
  have hb2 : (m.broadcast serialize sendOk message).2 =
      (m.active_connections.filter (fun c => c != bad)).map (fun c => (c, serialize message)) := by
    simp [ConnectionManager.broadcast, hempty, sendLoop_eq, hfs]
  have hb1 : (m.broadcast serialize sendOk message).1.active_connections =
      m.active_connections.erase bad := by
    simp [ConnectionManager.broadcast, hempty, sendLoop_eq, hfr,
      ConnectionManager.disconnect, hmem]
  refine ⟨hb2, hb1, ?_, ?_⟩
  · rw [hb1]
    intro habs
    exact ((hnd.mem_erase_iff).mp habs).1 rfl
  · intro c hc hcb
    rw [hb2]
    exact List.mem_map.mpr ⟨c, List.mem_filter.mpr ⟨hc, by simp [hcb]⟩, rfl⟩

/-- Witness for C1: observer 1 of the three-element registry 0, 1, 2 fails;
observers 0 and 2 still receive the frame and 1 is removed. -/
theorem C1_witness :
    (ConnectionManager.broadcast (fun _ => "frame") (fun c => c != 1)
        ⟨[0, 1, 2]⟩ (0 : Nat)).2 = [(0, "frame"), (2, "frame")] ∧
    (ConnectionManager.broadcast (fun _ => "frame") (fun c => c != 1)
        ⟨[0, 1, 2]⟩ (0 : Nat)).1.active_connections = [0, 2] ∧
    (1 : Obs) ∉ (ConnectionManager.broadcast (fun _ => "frame") (fun c => c != 1)
        ⟨[0, 1, 2]⟩ (0 : Nat)).1.active_connections := by
  have h := C1_observer_failure_is_isolated (fun _ => "frame") (fun c => c != 1)
    ⟨[0, 1, 2]⟩ (0 : Nat) 1 (by decide) (by decide) (by decide) (by decide)
  exact ⟨h.1.trans rfl, (h.2.1).trans rfl, h.2.2.1⟩

/-- Model of Python `math.radians`: degrees to radians. -/
noncomputable def radians (x : ℝ) : ℝ := x * (Real.pi / 180)

/-- Model of Python `math.atan2 y x`: the two-argument arctangent. -/
noncomputable def atan2 (y x : ℝ) : ℝ :=
  if 0 < x then Real.arctan (y / x)
  else if x < 0 then
    (if 0 ≤ y then Real.arctan (y / x) + Real.pi else Real.arctan (y / x) - Real.pi)
  else if 0 < y then Real.pi / 2
  else if y < 0 then -(Real.pi / 2)
  else 0

/-- The intermediate `a` of `calculate_distance` (buses.py lines 347-349):
sin²(Δlat/2) + cos(lat1)·cos(lat2)·sin²(Δlon/2), all angles in radians. -/
noncomputable def haversineA (lat1 lon1 lat2 lon2 : ℝ) : ℝ :=
  Real.sin (radians (lat2 - lat1) / 2) * Real.sin (radians (lat2 - lat1) / 2) +
    Real.cos (radians lat1) * Real.cos (radians lat2) *
      (Real.sin (radians (lon2 - lon1) / 2) * Real.sin (radians (lon2 - lon1) / 2))

/-- Model of `calculate_distance` (buses.py lines 340-354): Haversine distance
in kilometres with Earth radius R = 6371, c = 2·atan2(√a, √(1−a)). -/
noncomputable def calculate_distance (lat1 lon1 lat2 lon2 : ℝ) : ℝ :=
  6371 * (2 * atan2 (Real.sqrt (haversineA lat1 lon1 lat2 lon2))
    (Real.sqrt (1 - haversineA lat1 lon1 lat2 lon2)))

theorem haversineA_self (lat lon : ℝ) : haversineA lat lon lat lon = 0 := by
  simp [haversineA, radians]

theorem haversineA_comm (lat1 lon1 lat2 lon2 : ℝ) :
    haversineA lat1 lon1 lat2 lon2 = haversineA lat2 lon2 lat1 lon1 := by
  have hsin : ∀ u v : ℝ, Real.sin (radians (u - v) / 2) * Real.sin (radians (u - v) / 2)
      = Real.sin (radians (v - u) / 2) * Real.sin (radians (v - u) / 2) := by
    intro u v
    have h : radians (u - v) / 2 = -(radians (v - u) / 2) := by
      unfold radians
      ring
    rw [h, Real.sin_neg]
    ring
  unfold haversineA
  rw [hsin lat2 lat1, hsin lon2 lon1, mul_comm (Real.cos (radians lat1)) (Real.cos (radians lat2))]

/-- The distance from a point to itself is zero. -/
theorem calculate_distance_self (lat lon : ℝ) : calculate_distance lat lon lat lon = 0 := by
  unfold calculate_distance
  rw [haversineA_self]
  norm_num [atan2, Real.arctan_zero]

/-- The Haversine distance is symmetric in its two points. -/
theorem calculate_distance_comm (lat1 lon1 lat2 lon2 : ℝ) :
    calculate_distance lat1 lon1 lat2 lon2 = calculate_distance lat2 lon2 lat1 lon1 := by
  unfold calculate_distance
  rw [haversineA_comm]

/-- Claim C8: for all coordinate pairs a and b, the Haversine
`calculate_distance` satisfies dist(a, a) = 0 and dist(a, b) = dist(b, a). -/
theorem C8_distance_self_zero_and_symmetric (lat1 lon1 lat2 lon2 : ℝ) :
    calculate_distance lat1 lon1 lat1 lon1 = 0 ∧
    calculate_distance lat1 lon1 lat2 lon2 = calculate_distance lat2 lon2 lat1 lon1 :=
  ⟨calculate_distance_self lat1 lon1, calculate_distance_comm lat1 lon1 lat2 lon2⟩

/-- Crowd level enumeration (models.py lines 21-24). -/
inductive CrowdLevel where
  | low
  | medium
  | high
deriving DecidableEq, Repr

/-- Row of the `buses` table (models.py lines 95-108), restricted to the
columns the tracked handlers read. -/
structure Bus where
  id : Int
  bus_number : String
deriving DecidableEq, Repr

/-- Row of the `routes` table (models.py lines 115-127), columns used here. -/
structure Route where
  id : Int
  name : String
deriving DecidableEq, Repr

/-- Row of the `bus_stops` table (models.py lines 134-146), columns used here. -/
structure BusStop where
  id : Int
  name : String
deriving DecidableEq, Repr

/-- Row of the `route_stops` table (models.py lines 153-163), columns used here. -/
structure RouteStop where
  route_id : Int
  stop_id : Int
deriving DecidableEq, Repr

/-- Row of the `bus_assignments` table (models.py lines 170-185). The `bus`
relationship row is embedded directly; the source's `bus_id` column is
`bus.id` (the foreign key the ORM resolves). -/
structure BusAssignment where
  id : Int
  bus : Bus
  driver_id : Int
  route_id : Int
  start_time : Int
  end_time : Option Int
  is_active : Bool
deriving DecidableEq, Repr

/-- Row of the `bus_tracking` table (models.py lines 188-203). Timestamps are
integers; latitude/longitude are reals. -/
structure BusTracking where
  id : Int
  bus_id : Int
  latitude : ℝ
  longitude : ℝ
  speed_kmh : Option ℝ
  heading : Option ℝ
  accuracy_meters : Option ℝ
  crowd_level : CrowdLevel
  current_stop_id : Option Int
  next_stop_id : Option Int
  eta_minutes : Option Int
  is_on_route : Bool
  timestamp : Int

/-- The database: each table as an insertion-ordered list of rows. -/
structure DB where
  buses : List Bus
  assignments : List BusAssignment
  routes : List Route
  stops : List BusStop
  route_stops : List RouteStop
  tracking : List BusTracking

/-- Model of the latest-position query
`db.query(BusTracking).filter(BusTracking.bus_id == bus_id).order_by(BusTracking.timestamp.desc()).first()`
(buses.py lines 258-260 and 303-305): the maximum-timestamp row for the bus.
Rows with equal timestamps are resolved to the last-inserted such row: the
deployed backend is SQLite (config.py line 9) and `BusTracking.timestamp` is
indexed (models.py line 203), so the descending query is a reverse scan of the
timestamp index, in which the most recently inserted of the tied rows comes
first. -/
def latestTracking (tracking : List BusTracking) (bus_id : Int) : Option BusTracking :=
  (tracking.filter (fun t => t.bus_id == bus_id)).foldl
    (fun acc t =>
      match acc with
      | none => some t
      | some cur => if cur.timestamp ≤ t.timestamp then some t else some cur)
    none

/-- Claim C4: if exactly two samples r1 then r2 were recorded for a vehicle,
the latest-position query returns the one with the larger timestamp; on a
timestamp tie it deterministically returns the last-inserted one, which is the
row SQLite's reverse scan of the timestamp index yields — deterministic and
fixed by insertion order. -/
theorem C4_latest_is_max_timestamp (tracking : List BusTracking) (v : Int)
    (r1 r2 : BusTracking)
    (hfilter : tracking.filter (fun t => t.bus_id == v) = [r1, r2]) :
    (r1.timestamp < r2.timestamp → latestTracking tracking v = some r2) ∧
    (r1.timestamp = r2.timestamp → latestTracking tracking v = some r2) := by
  constructor
  · intro hlt
    unfold latestTracking
    rw [hfilter]
    simp [List.foldl, le_of_lt hlt]
  · intro heq
    unfold latestTracking
    rw [hfilter]
    simp [List.foldl, le_of_eq heq]

/-- Two concrete samples for bus 7, timestamps 10 and 20. -/
def sampleEarly : BusTracking :=
  { id := 1, bus_id := 7, latitude := 0, longitude := 0, speed_kmh := none,
    heading := none, accuracy_meters := none, crowd_level := CrowdLevel.low,
    current_stop_id := none, next_stop_id := none, eta_minutes := none,
    is_on_route := true, timestamp := 10 }

/-- Second concrete sample for bus 7 with the later timestamp 20. -/
def sampleLate : BusTracking :=
  { id := 2, bus_id := 7, latitude := 1, longitude := 1, speed_kmh := none,
    heading := none, accuracy_meters := none, crowd_level := CrowdLevel.high,
    current_stop_id := none, next_stop_id := none, eta_minutes := none,
    is_on_route := true, timestamp := 20 }

/-- Witness for C4: with the two concrete samples recorded in order, the
latest-position query returns the later one. -/
theorem C4_witness : latestTracking [sampleEarly, sampleLate] 7 = some sampleLate :=
  (C4_latest_is_max_timestamp [sampleEarly, sampleLate] 7 sampleEarly sampleLate rfl).1
    (by norm_num [sampleEarly, sampleLate])

/-- Request body `BusLocationUpdate` (schemas.py lines 465-475). Exactly the
fields declared in the source; in particular there is no `is_on_route` field. -/
structure BusLocationUpdate where
  bus_id : Int
  latitude : ℝ
  longitude : ℝ
  speed_kmh : Option ℝ
  heading : Option ℝ
  accuracy_meters : Option ℝ
  crowd_level : Option CrowdLevel
  current_stop_id : Option Int
  next_stop_id : Option Int
  eta_minutes : Option Int

/-- Wire payload of a `location_update` broadcast (buses.py lines 230-240). -/
structure Event where
  type : String
  bus_id : Int
  latitude : ℝ
  longitude : ℝ
  eta_minutes : Option Int
  crowd_level : String
  timestamp : Int

/-- Outcome of the location-update handler: HTTP 404 (bus not found), HTTP 403
(driver not assigned), or an uncaught Python `AttributeError` naming the
missing pydantic field. -/
inductive TrackingOutcome where
  | notFound
  | notAssigned
  | attributeError (missing : String)
deriving DecidableEq, Repr

/-- Model of `update_bus_location` (buses.py lines 181-242), returning the
outcome, the database afterwards and the list of broadcast events. The steps:
look up the bus (404 if absent, lines 191-196); look up an active assignment of
this driver to this bus (403 if absent, lines 199-209); then build the
`BusTracking` record (lines 212-224). `BusLocationUpdate` has no `is_on_route`
field, so evaluating the keyword argument `is_on_route=location_data.is_on_route`
at line 223 raises `AttributeError`; the insert, commit and broadcast (lines
226-240) are unreachable, and the database is left unchanged with nothing
broadcast. -/
def update_bus_location (db : DB) (driver_id bus_id : Int)
    (location_data : BusLocationUpdate) : TrackingOutcome × DB × List Event :=
  match db.buses.find? (fun b => b.id == bus_id) with
  | none => (TrackingOutcome.notFound, db, [])
  | some _ =>
    match db.assignments.find? (fun a =>
        a.bus.id == bus_id && a.driver_id == driver_id && a.is_active) with
    | none => (TrackingOutcome.notAssigned, db, [])
    | some _ => (TrackingOutcome.attributeError "is_on_route", db, [])

/-- Claim C5: recording a sample for an existing vehicle with no active
assignment fails with the not-assigned error (HTTP 403), leaves the database
unchanged, broadcasts nothing, and does not change the latest-position query. -/
theorem C5_record_without_assignment_fails (db : DB) (driver_id bus_id : Int)
    (location_data : BusLocationUpdate)
    (hbus : ∃ b ∈ db.buses, b.id = bus_id)
    (hnoassign : ∀ a ∈ db.assignments, a.bus.id = bus_id → a.is_active = false) :
    update_bus_location db driver_id bus_id location_data =
      (TrackingOutcome.notAssigned, db, []) ∧
    latestTracking (update_bus_location db driver_id bus_id location_data).2.1.tracking bus_id
      = latestTracking db.tracking bus_id := by
  have hfind : ∃ b, db.buses.find? (fun b => b.id == bus_id) = some b := by
    rcases hbus with ⟨b, hb, hid⟩
    cases h : db.buses.find? (fun b => b.id == bus_id) with
    | none =>
      exfalso
      have := List.find?_eq_none.mp h b hb
      simp [hid] at this
    | some b => exact ⟨b, rfl⟩
  have hassign : db.assignments.find? (fun a =>
      a.bus.id == bus_id && a.driver_id == driver_id && a.is_active) = none := by
    apply List.find?_eq_none.mpr
    intro a ha
    simp only [Bool.and_eq_true, beq_iff_eq, Bool.not_eq_true]
    intro hcontra
    have hinact := hnoassign a ha hcontra.1.1
    rw [hcontra.2] at hinact
    cases hinact
  rcases hfind with ⟨b, hb⟩
  have hmain : update_bus_location db driver_id bus_id location_data =
      (TrackingOutcome.notAssigned, db, []) := by
    simp [update_bus_location, hb, hassign]
  exact ⟨hmain, by rw [hmain]⟩

/-- Concrete bus used by the handler witnesses. -/
def busOne : Bus := { id := 1, bus_number := "KA-01-F-1111" }

/-- Concrete inactive assignment of driver 5 to bus 1. -/
def staleAssignment : BusAssignment :=
  { id := 1, bus := busOne, driver_id := 5, route_id := 3, start_time := 100,
    end_time := some 200, is_active := false }

/-- Concrete active assignment of driver 5 to bus 1. -/
def liveAssignment : BusAssignment :=
  { id := 2, bus := busOne, driver_id := 5, route_id := 3, start_time := 100,
    end_time := none, is_active := true }

/-- Database with bus 1 and only the inactive assignment. -/
def dbUnassigned : DB :=
  { buses := [busOne], assignments := [staleAssignment], routes := [],
    stops := [], route_stops := [], tracking := [] }

/-- Database with bus 1 and the active assignment of driver 5. -/
def dbAssigned : DB :=
  { buses := [busOne], assignments := [liveAssignment], routes := [],
    stops := [], route_stops := [], tracking := [] }

/-- Concrete request body for the handler witnesses. -/
def locBody : BusLocationUpdate :=
  { bus_id := 1, latitude := 12, longitude := 77, speed_kmh := none,
    heading := none, accuracy_meters := none, crowd_level := none,
    current_stop_id := none, next_stop_id := none, eta_minutes := none }

/-- Witness for C5: driver 5 reports for bus 1 while only an inactive
assignment exists; the call is rejected with 403 and nothing changes. -/
theorem C5_witness :
    update_bus_location dbUnassigned 5 1 locBody =
      (TrackingOutcome.notAssigned, dbUnassigned, []) :=
  (C5_record_without_assignment_fails dbUnassigned 5 1 locBody
    ⟨busOne, by simp [dbUnassigned], rfl⟩
    (by
      intro a ha hid
      simp only [dbUnassigned, List.mem_singleton] at ha
      rw [ha]
      rfl)).1

/-- Claim C2 (code bug): with bus 1 present and driver 5 actively assigned, the
handler aborts with `AttributeError` on the missing `is_on_route` field before
the insert and commit, so no sample is persisted and nothing is broadcast; the
commit-then-broadcast tail of the handler is unreachable. -/
theorem C2_location_update_aborts_before_persist :
    update_bus_location dbAssigned 5 1 locBody =
      (TrackingOutcome.attributeError "is_on_route", dbAssigned, []) := rfl

/-- Claim C9: the handler's result depends only on the path parameter, never on
the body's `bus_id` field: two requests whose bodies differ only in `bus_id`
produce identical outcomes, database states and broadcasts. -/
theorem C9_body_bus_id_is_ignored (db : DB) (driver_id bus_id : Int)
    (location_data : BusLocationUpdate) (other : Int) :
    update_bus_location db driver_id bus_id { location_data with bus_id := other } =
      update_bus_location db driver_id bus_id location_data := rfl

/-- Response schema `BusStatusSummary` (schemas.py lines 496-505);
`current_location` is the latitude/longitude pair of the source's dict. -/
structure BusStatusSummary where
  bus_id : Int
  bus_number : String
  route_name : String
  current_location : Option (ℝ × ℝ)
  next_stop : Option String
  eta_minutes : Option Int
  crowd_level : CrowdLevel
  is_on_route : Bool
  last_updated : Int

/-- Name of a stop by id, as resolved through the `next_stop` relationship. -/
def stopName (db : DB) (sid : Int) : Option String :=
  (db.stops.find? (fun s => s.id == sid)).map (fun s => s.name)

/-- Route name for an assignment:
`route.name if route else "Unknown Route"` (buses.py lines 263 and 268). -/
def routeNameOf (db : DB) (route_id : Int) : String :=
  ((db.routes.find? (fun r => r.id == route_id)).map (fun r => r.name)).getD "Unknown Route"

/-- Loop body of `get_active_buses_status` (buses.py lines 256-278): join one
active assignment with the latest tracking row of its bus; when no tracking row
exists fall back to crowd_level medium, on-route true, last_updated the
assignment's start_time and no current location. -/
def statusOf (db : DB) (a : BusAssignment) : BusStatusSummary :=
  match latestTracking db.tracking a.bus.id with
  | some t =>
    { bus_id := a.bus.id, bus_number := a.bus.bus_number,
      route_name := routeNameOf db a.route_id,
      current_location := some (t.latitude, t.longitude),
      next_stop := t.next_stop_id.bind (stopName db),
      eta_minutes := t.eta_minutes,
      crowd_level := t.crowd_level,
      is_on_route := t.is_on_route,
      last_updated := t.timestamp }
  | none =>
    { bus_id := a.bus.id, bus_number := a.bus.bus_number,
      route_name := routeNameOf db a.route_id,
      current_location := none,
      next_stop := none,
      eta_minutes := none,
      crowd_level := CrowdLevel.medium,
      is_on_route := true,
      last_updated := a.start_time }

/-- Model of `get_active_buses_status` (buses.py lines 245-282): one summary
per active assignment, in table order. -/
def get_active_buses_status (db : DB) : List BusStatusSummary :=
  (db.assignments.filter (fun a => a.is_active)).map (statusOf db)

/-- Claim C6: an active assignment whose bus has no tracking sample yields a
summary with crowd level medium, on-route true, last_updated equal to the
assignment's start time, and no current location, and that summary is in the
active-status response. -/
theorem C6_fresh_assignment_defaults (db : DB) (a : BusAssignment)
    (hmem : a ∈ db.assignments) (hact : a.is_active = true)
    (hnone : latestTracking db.tracking a.bus.id = none) :
    statusOf db a ∈ get_active_buses_status db ∧
    (statusOf db a).crowd_level = CrowdLevel.medium ∧
    (statusOf db a).is_on_route = true ∧
    (statusOf db a).last_updated = a.start_time ∧
    (statusOf db a).current_location = none := by
  have hs : statusOf db a =
      { bus_id := a.bus.id, bus_number := a.bus.bus_number,
        route_name := routeNameOf db a.route_id,
        current_location := none, next_stop := none, eta_minutes := none,
        crowd_level := CrowdLevel.medium, is_on_route := true,
        last_updated := a.start_time } := by
    simp [statusOf, hnone]
  refine ⟨?_, ?_, ?_, ?_, ?_⟩
  · exact List.mem_map.mpr ⟨a, List.mem_filter.mpr ⟨hmem, hact⟩, rfl⟩
  · rw [hs]
  · rw [hs]
  · rw [hs]
  · rw [hs]

/-- Witness for C6 on the concrete database with an active assignment and an
empty tracking table. -/
theorem C6_witness :
    (statusOf dbAssigned liveAssignment).crowd_level = CrowdLevel.medium ∧
    (statusOf dbAssigned liveAssignment).is_on_route = true ∧
    (statusOf dbAssigned liveAssignment).last_updated = 100 ∧
    (statusOf dbAssigned liveAssignment).current_location = none := by
  have h := C6_fresh_assignment_defaults dbAssigned liveAssignment
    (by simp [dbAssigned]) rfl rfl
  exact ⟨h.2.1, h.2.2.1, h.2.2.2.1, h.2.2.2.2⟩

/-- Loop body of `get_nearby_buses` (buses.py lines 301-335): skip an
assignment whose bus has no tracking row (`continue`, line 307); otherwise
include its summary exactly when the Haversine distance from the query point to
the latest position is within the radius (line 316). -/
noncomputable def nearbyStatus (db : DB) (latitude longitude radius_km : ℝ)
    (a : BusAssignment) : Option BusStatusSummary :=
  match latestTracking db.tracking a.bus.id with
  | none => none
  | some t =>
    if calculate_distance latitude longitude t.latitude t.longitude ≤ radius_km then
      some { bus_id := a.bus.id, bus_number := a.bus.bus_number,
             route_name := routeNameOf db a.route_id,
             current_location := some (t.latitude, t.longitude),
             next_stop := t.next_stop_id.bind (stopName db),
             eta_minutes := t.eta_minutes,
             crowd_level := t.crowd_level,
             is_on_route := t.is_on_route,
             last_updated := t.timestamp }
    else none

/-- Model of `get_nearby_buses` (buses.py lines 285-337): filter the active
assignments through `nearbyStatus`. The query is total — it never fails. -/
noncomputable def get_nearby_buses (db : DB) (latitude longitude radius_km : ℝ) :
    List BusStatusSummary :=
  (db.assignments.filter (fun a => a.is_active)).filterMap
    (nearbyStatus db latitude longitude radius_km)

/-- Claim C7: every summary returned by the nearby query corresponds to a bus
with a recorded latest position whose Haversine distance to the query point is
within the radius; in particular an active vehicle with no recorded position
never appears (its loop body yields nothing rather than failing). -/
theorem C7_nearby_within_radius (db : DB) (latitude longitude radius_km : ℝ) :
    (∀ s ∈ get_nearby_buses db latitude longitude radius_km, ∃ t : BusTracking,
      latestTracking db.tracking s.bus_id = some t ∧
      calculate_distance latitude longitude t.latitude t.longitude ≤ radius_km ∧
      s.current_location = some (t.latitude, t.longitude)) ∧
    (∀ a ∈ db.assignments, latestTracking db.tracking a.bus.id = none →
      nearbyStatus db latitude longitude radius_km a = none) := by
  constructor
  · intro s hs
    rcases List.mem_filterMap.mp hs with ⟨a, _, hsa⟩
    unfold nearbyStatus at hsa
    cases ht : latestTracking db.tracking a.bus.id with
    | none =>
      rw [ht] at hsa
      cases hsa
    | some t =>
      rw [ht] at hsa
      simp only [Option.ite_none_right_eq_some, Option.some_inj] at hsa
      rcases hsa with ⟨hd, rfl⟩
      exact ⟨t, ht, hd, rfl⟩
  · intro a _ hnone
    unfold nearbyStatus
    rw [hnone]

/-- Tracking row for bus 1 at the origin, used by the C7 witness. -/
def originSample : BusTracking :=
  { id := 3, bus_id := 1, latitude := 0, longitude := 0, speed_kmh := none,
    heading := none, accuracy_meters := none, crowd_level := CrowdLevel.medium,
    current_stop_id := none, next_stop_id := none, eta_minutes := none,
    is_on_route := true, timestamp := 50 }

/-- Database with bus 1 actively assigned and one sample at the origin. -/
def dbTracked : DB :=
  { buses := [busOne], assignments := [liveAssignment], routes := [],
    stops := [], route_stops := [], tracking := [originSample] }

/-- Summary the nearby query returns for bus 1 in `dbTracked`. -/
def nearSummary : BusStatusSummary :=
  { bus_id := 1, bus_number := "KA-01-F-1111", route_name := "Unknown Route",
    current_location := some (0, 0), next_stop := none, eta_minutes := none,
    crowd_level := CrowdLevel.medium, is_on_route := true, last_updated := 50 }

/-- Witness for C7: querying from the origin with radius 2 km returns bus 1,
whose recorded position is at distance 0 ≤ 2 from the query point. -/
theorem C7_witness : ∃ t : BusTracking,
    latestTracking dbTracked.tracking nearSummary.bus_id = some t ∧
    calculate_distance 0 0 t.latitude t.longitude ≤ 2 ∧
    nearSummary.current_location = some (t.latitude, t.longitude) := by
  have hns : nearbyStatus dbTracked 0 0 2 liveAssignment = some nearSummary := by
    unfold nearbyStatus
    simp only [show latestTracking dbTracked.tracking liveAssignment.bus.id =
      some originSample from rfl, Option.ite_none_right_eq_some, Option.some_inj]
    refine ⟨?_, rfl⟩
    have h0 : calculate_distance 0 0 originSample.latitude originSample.longitude = 0 :=
      calculate_distance_self 0 0
    rw [h0]
    norm_num
  have hmem : nearSummary ∈ get_nearby_buses dbTracked 0 0 2 := by
    unfold get_nearby_buses
    rw [show dbTracked.assignments.filter (fun a => a.is_active) = [liveAssignment] from rfl]
    simp [List.filterMap_cons, hns]
  exact (C7_nearby_within_radius dbTracked 0 0 2).1 nearSummary hmem

/-- Request body `RoutePlanRequest` (schemas.py lines 442-446), the fields the
planner reads. -/
structure RoutePlanRequest where
  origin : String
  destination : String

/-- Response item `RouteOption` (schemas.py lines 449-455). -/
structure RouteOption where
  duration_minutes : Int
  transfers : Int
  buses : List String
  walking_time_minutes : Int
  details : String
  total_distance_km : ℝ

/-- Response `RoutePlanResponse` (schemas.py lines 458-461). -/
structure RoutePlanResponse where
  options : List RouteOption
  origin : String
  destination : String

/-- Error outcome of the planner: HTTP 404 when either end has no nearby stop
(routes.py lines 262-266). -/
inductive PlanError where
  | noStopsFound
deriving DecidableEq, Repr

/-- Substring test on character lists: does `pat` occur contiguously in `l`?
An empty pattern occurs in every list. -/
def containsSub (l pat : List Char) : Bool :=
  match l with
  | [] => pat.isEmpty
  | _ :: rest => pat.isPrefixOf l || containsSub rest pat

/-- Characters of a string, lowercased. -/
def lowerChars (s : String) : List Char := s.data.map Char.toLower

/-- Model of SQL `name ILIKE '%location%'`: case-insensitive substring test. -/
def ilikeContains (name location : String) : Bool :=
  containsSub (lowerChars name) (lowerChars location)

/-- Model of `find_nearby_stops` (routes.py lines 312-319): stops whose name
contains the location string case-insensitively, limited to 3, in table order. -/
def find_nearby_stops (location : String) (db : DB) : List BusStop :=
  (db.stops.filter (fun s => ilikeContains s.name location)).take 3

/-- Model of `find_direct_route` (routes.py lines 322-352): pick a route
serving both stops (the source takes an arbitrary element of the common-route
set; the model deterministically takes the first in origin table order), then
the bus number of an active assignment on it, if any. -/
def find_direct_route (origin_stop destination_stop : BusStop) (db : DB) :
    Option (String × Int) :=
  let origin_routes :=
    (db.route_stops.filter (fun rs => rs.stop_id == origin_stop.id)).map (fun rs => rs.route_id)
  let destination_routes :=
    (db.route_stops.filter (fun rs => rs.stop_id == destination_stop.id)).map (fun rs => rs.route_id)
  match origin_routes.filter (fun rid => destination_routes.contains rid) with
  | [] => none
  | route_id :: _ =>
    match db.assignments.find? (fun a => a.route_id == route_id && a.is_active) with
    | some assignment => some (assignment.bus.bus_number, route_id)
    | none => none

/-- Transfer-route result of `find_transfer_route` (routes.py lines 355-363). -/
structure TransferRoute where
  buses : List String
  transfer_stop : String

/-- Model of `find_transfer_route` (routes.py lines 355-363): unconditionally
returns the hardcoded Bus A / Bus B route through Central Station. -/
def find_transfer_route (origin_stop destination_stop : BusStop) (db : DB) :
    Option TransferRoute :=
  some { buses := ["Bus A", "Bus B"], transfer_stop := "Central Station" }

/-- Model of `plan_route` (routes.py lines 248-309): find stops near each end
(404 when either list is empty); then assemble up to three options: a direct
one when `find_direct_route` succeeds, the transfer one when
`find_transfer_route` succeeds, and a filler alternative whenever fewer than
two options were produced. -/
def plan_route (plan_request : RoutePlanRequest) (db : DB) :
    Except PlanError RoutePlanResponse :=
  match find_nearby_stops plan_request.origin db,
      find_nearby_stops plan_request.destination db with
  | [], _ => Except.error PlanError.noStopsFound
  | _ :: _, [] => Except.error PlanError.noStopsFound
  | o :: _, d :: _ =>
    let opts1 : List RouteOption :=
      match find_direct_route o d db with
      | some direct =>
        [{ duration_minutes := 30, transfers := 0, buses := [direct.1],
           walking_time_minutes := 5,
           details := "Take " ++ direct.1 ++ " from " ++ plan_request.origin ++
             " to " ++ plan_request.destination,
           total_distance_km := 10.5 }]
      | none => []
    let opts2 : List RouteOption := opts1 ++
      (match find_transfer_route o d db with
       | some tr =>
         [{ duration_minutes := 45, transfers := 1, buses := tr.buses,
            walking_time_minutes := 8,
            details := "Take " ++ tr.buses.getD 0 "" ++ ", transfer at " ++
              tr.transfer_stop ++ ", then " ++ tr.buses.getD 1 "",
            total_distance_km := 12.3 }]
       | none => [])
    let opts3 : List RouteOption :=
      if opts2.length < 2 then
        opts2 ++
          [{ duration_minutes := 55, transfers := 1, buses := ["Alternative Bus"],
             walking_time_minutes := 10,
             details := "Alternative route with longer travel time",
             total_distance_km := 15.2 }]
      else opts2
    Except.ok { options := opts3, origin := plan_request.origin,
                destination := plan_request.destination }

/-- Claim C10: whenever both nearby-stop lookups are non-empty the planner
succeeds and returns at least two route options — the transfer finder always
produces an option, and a filler alternative is added when fewer than two
exist. -/
theorem C10_plan_has_at_least_two_options (plan_request : RoutePlanRequest) (db : DB)
    (ho : find_nearby_stops plan_request.origin db ≠ [])
    (hd : find_nearby_stops plan_request.destination db ≠ []) :
    ∃ resp : RoutePlanResponse,
      plan_route plan_request db = Except.ok resp ∧ 2 ≤ resp.options.length := by
  unfold plan_route
  cases hof : find_nearby_stops plan_request.origin db with
  | nil => exact absurd hof ho
  | cons o orest =>
    cases hdf : find_nearby_stops plan_request.destination db with
    | nil => exact absurd hdf hd
    | cons d drest =>
      cases hdir : find_direct_route o d db with
      | none =>
        refine ⟨_, rfl, ?_⟩
        simp [hdir, find_transfer_route]
      | some direct =>
        refine ⟨_, rfl, ?_⟩
        simp [hdir, find_transfer_route]

/-- Concrete stop for the C10 witness. -/
def stopCentral : BusStop := { id := 1, name := "Central Station" }

/-- Database with a single stop, no routes and no assignments. -/
def dbPlan : DB :=
  { buses := [], assignments := [], routes := [], stops := [stopCentral],
    route_stops := [], tracking := [] }

/-- Concrete planning request whose substring lookups both match the stop. -/
def planReq : RoutePlanRequest := { origin := "Central", destination := "Station" }

/-- Witness for C10: both lookups find the stop, and the planner returns at
least two options even though the database has no routes at all. -/
theorem C10_witness : ∃ resp : RoutePlanResponse,
    plan_route planReq dbPlan = Except.ok resp ∧ 2 ≤ resp.options.length :=
  C10_plan_has_at_least_two_options planReq dbPlan (by decide) (by decide)

end BusApp
